import Mathlib

/-!
# BillTracker — verification of the reminder/notification core

Shallow embedding of the BillTracker sources into Lean 4:

* timestamps are modelled as `Int` milliseconds on a uniform local timeline
  (no DST); `startOfDay`, `isSameDay` and date-fns `differenceInDays`
  (truncation toward zero of full 24h periods) are defined on it;
* the bill and settings records follow the Drizzle schema
  (`shared/schema.ts`, latest revision);
* the per-minute reminder sweep of `server/routes.ts` (`registerRoutes`)
  becomes a pure function from a store (bills + settings) and a reference
  instant `now` to an updated store plus the list of attempted sends;
  outbound sends are parametrised by an outcome oracle, mirroring the fact
  that `sendReminderEmail` / `sendTelegramMessage` catch every error
  internally and their caller ignores the result;
* the client calendar logic (`CalendarView.tsx`) is embedded twice: the
  urgency classifier `getBillStatusColor` on the millisecond timeline, and
  the recurring-bill projection loop on a calendar-date type `CDate`
  (date-fns `addMonths` clamps the day of month).
-/

/-! ## Time primitives (millisecond timeline) -/

/-- Milliseconds per minute. -/
def msPerMinute : Int := 60000

/-- Milliseconds per day. -/
def msPerDay : Int := 86400000

/-- Index of the local calendar day containing instant `t` (floor division,
so it is correct for instants before the epoch as well). -/
def dayIndex (t : Int) : Int := Int.fdiv t msPerDay

/-- `startOfDay` / `setHours(0,0,0,0)`: midnight of the day containing `t`. -/
def startOfDay (t : Int) : Int := dayIndex t * msPerDay

/-- date-fns `isSameDay`: both instants fall on the same calendar day. -/
def isSameDay (a b : Int) : Bool := dayIndex a == dayIndex b

/-- date-fns `differenceInDays a b`: the number of full 24-hour periods from
`b` to `a`, fractional days truncated toward zero. -/
def differenceInDays (a b : Int) : Int := Int.tdiv (a - b) msPerDay

/-! ## Data model (`shared/schema.ts`) -/

/-- The `status` column: `text("status", \x7b enum: ["paid", "unpaid"] \x7d)`. -/
inductive BillStatus
  | paid
  | unpaid
deriving DecidableEq, Repr

/-- A row of the `bills` table. Nullable columns are `Option`; `amount` is a
`numeric` column surfaced as a string; timestamps are `Int` milliseconds. -/
structure Bill where
  id : Nat
  title : String
  amount : String
  dueDate : Int
  status : BillStatus
  category : String
  isRecurring : Option Bool
  recurringInterval : Option String
  invoiceUrl : Option String
  reminderSoundInterval : Option Int
  lastEmailRemindedAt : Option Int
  createdAt : Option Int
  lastRemindedAt : Option Int
deriving DecidableEq, Repr

/-- A row of the `settings` table. The columns `userEmail` through
`isEmailEnabled` are from the schema in the sources.

Modelled from the spec: the columns `isSoundEnabled`, `isMuted` and
`alertSoundUrl` are read by the client (`CalendarView.tsx`, the Settings
page) but the schema revision defining them is not among the source files;
they follow the spec's Settings record (all nullable, boolean flags
defaulting to a disabled state). The server sweep never reads them. -/
structure Settings where
  id : Nat
  userEmail : Option String
  telegramToken : Option String
  telegramChatId : Option String
  isTelegramEnabled : Option Bool
  isEmailEnabled : Option Bool
  isSoundEnabled : Option Bool
  isMuted : Option Bool
  alertSoundUrl : Option String
deriving DecidableEq, Repr

/-- JS truthiness of a nullable boolean column (`null` is falsy). -/
def truthy : Option Bool → Bool
  | some b => b
  | none => false

/-- JS truthiness of a nullable text column (`null` and `""` are falsy). -/
def truthyStr : Option String → Bool
  | some s => !(s == "")
  | none => false

/-! ## Urgency classifier (`CalendarView.tsx`, `getBillStatusColor`) -/

/-- The `BillStatusColor` union type. -/
inductive BillStatusColor
  | red
  | yellow
  | green
  | gray
deriving DecidableEq, Repr

/-- `getBillStatusColor(bill, referenceDate = new Date())`. The ambient wall
clock (`new Date()` inside the body) is made explicit as `wallClock`; the
`referenceDate` parameter is kept because the source declares it, and, as in
the source, the body never uses it — `today` is always built from the wall
clock. -/
def getBillStatusColor (bill : Bill) (referenceDate : Int) (wallClock : Int) :
    BillStatusColor :=
  if bill.status = BillStatus.paid then BillStatusColor.gray
  else
    let today := startOfDay wallClock
    let dueDate := startOfDay bill.dueDate
    let diffDays := differenceInDays dueDate today
    if diffDays ≤ 2 then BillStatusColor.red
    else if diffDays ≤ 7 then BillStatusColor.yellow
    else BillStatusColor.green

/-! ## The reminder sweep (`server/routes.ts`, `registerRoutes`)

The `setInterval` body running once per minute: fetch the unpaid bills,
classify each against the shared `now`, and fire the email / Telegram /
sound channels according to their gates, writing the reminder timestamps
back by bill id.  Outbound sends are modelled by an outcome oracle
`Nat → Channel → Bool` (bill id and channel to success flag): in the source
`sendReminderEmail` and `sendTelegramMessage` wrap their whole body in
try/catch, log, and return `void`, so the caller proceeds identically on
success and on failure. -/

/-- A notification channel. -/
inductive Channel
  | email
  | telegram
  | sound
deriving DecidableEq, Repr

/-- The urgency tag passed to the senders. -/
inductive Urgency
  | RED
  | YELLOW
deriving DecidableEq, Repr

/-- One attempted send of the sweep: which bill, which channel, which
urgency, and whether the underlying provider call succeeded (`ok`).  The
sound channel is not a network send; its `ok` is always `true`. -/
structure Attempt where
  billId : Nat
  channel : Channel
  urgency : Urgency
  ok : Bool
deriving DecidableEq, Repr

/-- The day part of the RED email gate:
`!lastEmail || !isSameDay(lastEmail, now)` — no email was sent on the
calendar day of `now`. -/
def redEmailDue (b : Bill) (now : Int) : Bool :=
  match b.lastEmailRemindedAt with
  | none => true
  | some t => !isSameDay t now

/-- RED email gate: `settings.isEmailEnabled && settings.userEmail &&
(!lastEmail || !isSameDay(lastEmail, now))`. -/
def redEmailGate (s : Settings) (b : Bill) (now : Int) : Bool :=
  truthy s.isEmailEnabled && truthyStr s.userEmail && redEmailDue b now

/-- Telegram enablement and credentials:
`settings.isTelegramEnabled && settings.telegramToken && settings.telegramChatId`. -/
def telegramConfigured (s : Settings) : Bool :=
  truthy s.isTelegramEnabled && truthyStr s.telegramToken &&
    truthyStr s.telegramChatId

/-- `bill.reminderSoundInterval || 120` (JS `||`: `null` and `0` fall back
to the default 120 minutes). -/
def soundIntervalOf (b : Bill) : Int :=
  match b.reminderSoundInterval with
  | some n => if n = 0 then 120 else n
  | none => 120

/-- `minsSinceSound >= interval` with `minsSinceSound` `Infinity` when the
timestamp is null.  The source divides the millisecond difference by 60000
before comparing; multiplying the interval by `msPerMinute` instead is the
same comparison over exact arithmetic. -/
def soundDue (lastSound : Option Int) (interval now : Int) : Bool :=
  match lastSound with
  | none => true
  | some t => decide (now - t ≥ interval * msPerMinute)

/-- RED sound gate of the sweep (interval defaulted per `soundIntervalOf`). -/
def soundGate (b : Bill) (now : Int) : Bool :=
  soundDue b.lastRemindedAt (soundIntervalOf b) now

/-- YELLOW day gate: `lastEmail ? differenceInDays(now, lastEmail) >= 2 :
true` (`daysSinceEmail` is `Infinity` when null). -/
def yellowEmailDays (lastEmail : Option Int) (now : Int) : Bool :=
  match lastEmail with
  | none => true
  | some t => decide (differenceInDays now t ≥ 2)

/-- YELLOW email gate: `daysSinceEmail >= 2 && settings.isEmailEnabled &&
settings.userEmail`. -/
def yellowEmailFires (s : Settings) (b : Bill) (now : Int) : Bool :=
  yellowEmailDays b.lastEmailRemindedAt now && truthy s.isEmailEnabled &&
    truthyStr s.userEmail

/-- The sweep body for one bill (the `for` loop of the reminder
`setInterval`): classify by `diffDays` and fire the channels.

RED (`diffDays <= 2`): daily email (`redEmailGate`), Telegram piggybacked on
`shouldEmail`, and the sound alert every `reminderSoundInterval` minutes
(note: the source consults no sound enablement flag here).  YELLOW
(`3 <= diffDays <= 7`): email every 2 days and Telegram under the same day
gate (the Telegram branch reads the `lastEmail` captured before the email
branch wrote, and advances no timestamp of its own).  Anything else: no
action.  Returns the bill as left in the database plus the attempts in
source order. -/
def processBill (o : Nat → Channel → Bool) (s : Settings) (now : Int)
    (b : Bill) : Bill × List Attempt :=
  if differenceInDays (startOfDay b.dueDate) (startOfDay now) ≤ 2 then
    ({ b with
        lastEmailRemindedAt :=
          if redEmailGate s b now then some now else b.lastEmailRemindedAt,
        lastRemindedAt :=
          if soundGate b now then some now else b.lastRemindedAt },
     (if redEmailGate s b now then
        [⟨b.id, Channel.email, Urgency.RED, o b.id Channel.email⟩] else []) ++
     (if telegramConfigured s && redEmailGate s b now then
        [⟨b.id, Channel.telegram, Urgency.RED, o b.id Channel.telegram⟩]
      else []) ++
     (if soundGate b now then
        [⟨b.id, Channel.sound, Urgency.RED, true⟩] else []))
  else if differenceInDays (startOfDay b.dueDate) (startOfDay now) ≤ 7 ∧
      3 ≤ differenceInDays (startOfDay b.dueDate) (startOfDay now) then
    ({ b with
        lastEmailRemindedAt :=
          if yellowEmailFires s b now then some now
          else b.lastEmailRemindedAt },
     (if yellowEmailFires s b now then
        [⟨b.id, Channel.email, Urgency.YELLOW, o b.id Channel.email⟩]
      else []) ++
     (if telegramConfigured s && yellowEmailDays b.lastEmailRemindedAt now then
        [⟨b.id, Channel.telegram, Urgency.YELLOW, o b.id Channel.telegram⟩]
      else []))
  else (b, [])

/-- The sweep visits only the bills returned by `getUnpaidBills()`
(`status = "unpaid"`); paid bills pass through untouched. -/
def sweepStep (o : Nat → Channel → Bool) (s : Settings) (now : Int)
    (b : Bill) : Bill × List Attempt :=
  if b.status = BillStatus.unpaid then processBill o s now b else (b, [])

/-- The mutable state the sweep can see: the `bills` table and the singleton
`settings` row. -/
structure Store where
  bills : List Bill
  settings : Settings
deriving DecidableEq, Repr

/-- One execution of the reminder sweep: every bill is evaluated against the
same `now` and the same settings row, timestamp writes are keyed by bill id
(ids are assumed unique, as for a serial primary key), and the settings row
is only read. -/
def sweepO (o : Nat → Channel → Bool) (st : Store) (now : Int) :
    Store × List Attempt :=
  ({ bills := st.bills.map (fun b => (sweepStep o st.settings now b).1),
     settings := st.settings },
   st.bills.flatMap (fun b => (sweepStep o st.settings now b).2))

/-- The oracle where every provider call succeeds. -/
def allSendsOk : Nat → Channel → Bool := fun _ _ => true

/-- The sweep with all sends succeeding. -/
def sweep (st : Store) (now : Int) : Store × List Attempt :=
  sweepO allSendsOk st now

/-- Forget the provider outcome of an attempt (keep bill, channel, urgency). -/
def eraseOutcome (a : Attempt) : Attempt := { a with ok := true }

/-- How many attempts in `l` target channel `c`. -/
def channelAttempts (l : List Attempt) (c : Channel) : Nat :=
  (l.filter (fun a => a.channel == c)).length

/-! ## CRUD surface (`shared/routes.ts`, `shared/schema.ts`,
`server/storage.ts`) -/

/-- The parsed output type of `insertBillSchema.partial()`, the validator
run by `PUT /api/bills/:id` (TS type `Partial<InsertBill>`).
`insertBillSchema` is `createInsertSchema(bills).omit(\x7b id: true,
createdAt: true, lastRemindedAt: true \x7d)`, so `id`, `createdAt` and
`lastRemindedAt` cannot be supplied — but `lastEmailRemindedAt` is not
omitted and remains in the schema.  An outer `Option` marks a field absent
from the payload; the inner `Option` of nullable columns is the column's
own null.  Which values of this type a request can actually produce is
decided by the zod validation, embedded below as `parseBillUpdate`: in
particular the `lastEmailRemindedAt` validator is the generated
`z.date().nullable().optional()` with no coercion (only `dueDate` gets
`z.coerce.date()`), and a JSON body can never contain a `Date` instance,
so no reachable payload carries a non-null time for it. -/
structure BillUpdate where
  title : Option String := none
  amount : Option String := none
  dueDate : Option Int := none
  status : Option BillStatus := none
  category : Option String := none
  isRecurring : Option (Option Bool) := none
  recurringInterval : Option (Option String) := none
  invoiceUrl : Option (Option String) := none
  reminderSoundInterval : Option (Option Int) := none
  lastEmailRemindedAt : Option (Option Int) := none
deriving DecidableEq, Repr

/-- `DatabaseStorage.updateBill`: `db.update(bills).set(updates)` — every
column present in the payload is written as given, the rest keep their
stored values. -/
def applyBillUpdate (b : Bill) (u : BillUpdate) : Bill :=
  { b with
    title := u.title.getD b.title,
    amount := u.amount.getD b.amount,
    dueDate := u.dueDate.getD b.dueDate,
    status := u.status.getD b.status,
    category := u.category.getD b.category,
    isRecurring := u.isRecurring.getD b.isRecurring,
    recurringInterval := u.recurringInterval.getD b.recurringInterval,
    invoiceUrl := u.invoiceUrl.getD b.invoiceUrl,
    reminderSoundInterval :=
      u.reminderSoundInterval.getD b.reminderSoundInterval,
    lastEmailRemindedAt := u.lastEmailRemindedAt.getD b.lastEmailRemindedAt }

/-- A JSON value as `express.json()` can deliver it to the route handler:
null, boolean, number, string, array or object (JSON numbers are modelled
as integers; array and object contents are irrelevant here because no field
validator of the bill schemas accepts either). A `Date` instance is not
among them: no JSON body can carry one. -/
inductive JsonValue
  | jnull
  | jbool (b : Bool)
  | jnum (n : Int)
  | jstr (s : String)
  | jarr
  | jobj
deriving DecidableEq, Repr

/-- The request body of `PUT /api/bills/:id` before validation: each schema
field either absent or some JSON value.  Unknown extra keys are stripped by
zod and need no modelling. -/
structure UpdateRequestBody where
  title : Option JsonValue := none
  amount : Option JsonValue := none
  dueDate : Option JsonValue := none
  status : Option JsonValue := none
  category : Option JsonValue := none
  isRecurring : Option JsonValue := none
  recurringInterval : Option JsonValue := none
  invoiceUrl : Option JsonValue := none
  reminderSoundInterval : Option JsonValue := none
  lastEmailRemindedAt : Option JsonValue := none
deriving DecidableEq, Repr

/-- `z.string().optional()` (non-null text columns under `.partial()`):
absent passes, a string passes, everything else is a validation error
(`none`). -/
def vOptString : Option JsonValue → Option (Option String)
  | none => some none
  | some (JsonValue.jstr s) => some (some s)
  | some _ => none

/-- The `amount` field: `z.number().or(z.string()).transform(String)`,
under `.partial()`. -/
def vAmount : Option JsonValue → Option (Option String)
  | none => some none
  | some (JsonValue.jnum n) => some (some (toString n))
  | some (JsonValue.jstr s) => some (some s)
  | some _ => none

/-- The `dueDate` field: `z.coerce.date()` under `.partial()` — the one
date field the schema coerces (`new Date(value)`).  The JS `Date`
constructor's behaviour on JSON values is taken as a parameter `jsNewDate`
(`none` standing for an Invalid Date, which `z.date()` rejects). -/
def vDueDate (jsNewDate : JsonValue → Option Int) :
    Option JsonValue → Option (Option Int)
  | none => some none
  | some v =>
    match jsNewDate v with
    | some t => some (some t)
    | none => none

/-- The `status` field: the enum validator `z.enum(["paid", "unpaid"])`
under `.partial()`. -/
def vStatus : Option JsonValue → Option (Option BillStatus)
  | none => some none
  | some (JsonValue.jstr s) =>
    if s = "paid" then some (some BillStatus.paid)
    else if s = "unpaid" then some (some BillStatus.unpaid)
    else none
  | some _ => none

/-- `z.boolean().nullable().optional()` (nullable boolean columns). -/
def vNullableBool : Option JsonValue → Option (Option (Option Bool))
  | none => some none
  | some JsonValue.jnull => some (some none)
  | some (JsonValue.jbool b) => some (some (some b))
  | some _ => none

/-- `z.string().nullable().optional()` (nullable text columns). -/
def vNullableString : Option JsonValue → Option (Option (Option String))
  | none => some none
  | some JsonValue.jnull => some (some none)
  | some (JsonValue.jstr s) => some (some (some s))
  | some _ => none

/-- `z.number().nullable().optional()` (the nullable integer column
`reminderSoundInterval`). -/
def vNullableNum : Option JsonValue → Option (Option (Option Int))
  | none => some none
  | some JsonValue.jnull => some (some none)
  | some (JsonValue.jnum n) => some (some (some n))
  | some _ => none

/-- The `lastEmailRemindedAt` field: the generated
`z.date().nullable().optional()` — no coercion, so the only JSON values it
accepts are absence and null; `z.date()` requires an actual `Date`
instance, which no JSON body can contain. -/
def vNullableDate : Option JsonValue → Option (Option (Option Int))
  | none => some none
  | some JsonValue.jnull => some (some none)
  | some _ => none

/-- `api.bills.update.input.parse(req.body)`: validate every field of the
body against `insertBillSchema.partial()`; any failing field rejects the
whole request (`none`, answered with a 400 and no write). -/
def parseBillUpdate (jsNewDate : JsonValue → Option Int)
    (r : UpdateRequestBody) : Option BillUpdate := do
  let title ← vOptString r.title
  let amount ← vAmount r.amount
  let dueDate ← vDueDate jsNewDate r.dueDate
  let status ← vStatus r.status
  let category ← vOptString r.category
  let isRecurring ← vNullableBool r.isRecurring
  let recurringInterval ← vNullableString r.recurringInterval
  let invoiceUrl ← vNullableString r.invoiceUrl
  let reminderSoundInterval ← vNullableNum r.reminderSoundInterval
  let lastEmailRemindedAt ← vNullableDate r.lastEmailRemindedAt
  some { title := title, amount := amount, dueDate := dueDate,
         status := status, category := category,
         isRecurring := isRecurring,
         recurringInterval := recurringInterval,
         invoiceUrl := invoiceUrl,
         reminderSoundInterval := reminderSoundInterval,
         lastEmailRemindedAt := lastEmailRemindedAt }

/-- The `PUT /api/bills/:id` handler on a stored bill: parse the body, and
on success write the update through `DatabaseStorage.updateBill`; `none` is
the 400 response, which leaves the bill untouched. -/
def putBill (jsNewDate : JsonValue → Option Int) (b : Bill)
    (r : UpdateRequestBody) : Option Bill :=
  (parseBillUpdate jsNewDate r).map (applyBillUpdate b)

/-! ## Client-side audio playback (`CalendarView.tsx`, the `useEffect`) -/

/-- The client plays the looping alert exactly when some bill classifies
red, `settings.isSoundEnabled` is truthy, `settings.isMuted` is falsy, and
an `alertSoundUrl` is configured (`playAlert` returns without starting audio
when the url is missing). -/
def soundAlertPlays (bs : List Bill) (s : Settings) (wallClock : Int) : Bool :=
  let redBills := bs.filter (fun b =>
    getBillStatusColor b wallClock wallClock == BillStatusColor.red)
  decide (redBills.length > 0) && truthy s.isSoundEnabled &&
    !(truthy s.isMuted) && truthyStr s.alertSoundUrl

/-! ## Recurring-bill projection (`CalendarView.tsx`, `DayContent`)

The projection loop works on calendar dates (date-fns `addMonths` clamps
the day of month), so here dates are year/month/day records rather than
millisecond instants. -/

/-- A calendar date: year, month (1–12), day of month. -/
structure CDate where
  year : Int
  month : Int
  day : Int
deriving DecidableEq, Repr

/-- Gregorian leap year. -/
def isLeapYear (y : Int) : Bool :=
  (y % 4 == 0 && y % 100 != 0) || (y % 400 == 0)

/-- Days in a month of a given year. -/
def daysInMonth (y m : Int) : Int :=
  if m = 2 then (if isLeapYear y then 29 else 28)
  else if m = 4 ∨ m = 6 ∨ m = 9 ∨ m = 11 then 30
  else 31

/-- date-fns `addMonths`: advance the month and clamp the day of month to
the target month's length (Jan 31 + 1 month = Feb 28/29). -/
def addMonthsC (d : CDate) (n : Int) : CDate :=
  let total := d.year * 12 + (d.month - 1) + n
  let y := Int.fdiv total 12
  let m := Int.emod total 12 + 1
  { year := y, month := m, day := min d.day (daysInMonth y m) }

/-- date-fns `addYears` (same clamping as twelve months). -/
def addYearsC (d : CDate) (n : Int) : CDate := addMonthsC d (12 * n)

/-- Lexicographic order on calendar dates: `a` is on or before `b`. -/
def cdLE (a b : CDate) : Bool :=
  decide (a.year < b.year) ||
    (a.year == b.year &&
      (decide (a.month < b.month) ||
        (a.month == b.month && decide (a.day ≤ b.day))))

/-- Strictly before. -/
def cdLT (a b : CDate) : Bool := cdLE a b && !(a == b)

/-- One step of the projection: the `if`/`else if` chain selecting the next
occurrence date, `none` standing for the final `else break` (reached by
`"custom"` and any unknown interval). -/
def projectStep (interval : Option String) (d : CDate) : Option CDate :=
  if interval == some "monthly" then some (addMonthsC d 1)
  else if interval == some "3-months" then some (addMonthsC d 3)
  else if interval == some "6-months" then some (addMonthsC d 6)
  else if interval == some "yearly" then some (addYearsC d 1)
  else if interval == some "2-years" then some (addYearsC d 2)
  else none

/-- The `while (nextDate <= limitDate)` loop of `DayContent`, deciding
whether the recurring bill projects an occurrence onto `target`: step the
date, return a hit on `isSameDay(nextDate, date)`, break once `nextDate`
passes `target` or the one-year `limit`.  `fuel` bounds the recursion; the
results proved below hold for every fuel value. -/
def projectLoop (interval : Option String) (target limit : CDate) :
    Nat → CDate → Bool
  | 0, _ => false
  | fuel + 1, cur =>
    if cdLE cur limit then
      match projectStep interval cur with
      | none => false
      | some nd =>
        if nd == target then true
        else if cdLT target nd then false
        else projectLoop interval target limit fuel nd
    else false

/-- The bill fields `DayContent` consults (the client `Bill` carries its
`dueDate` as a date object). -/
structure CalendarBill where
  dueDate : CDate
  status : BillStatus
  isRecurring : Option Bool
  recurringInterval : Option String
deriving DecidableEq, Repr

/-- Whether `DayContent` shows bill `b` on calendar day `target`: either the
stored due date falls on that day, or the bill is recurring and the
projection loop lands on it. -/
def dayShowsBill (b : CalendarBill) (target limit : CDate) (fuel : Nat) :
    Bool :=
  if b.dueDate == target then true
  else if truthy b.isRecurring then
    projectLoop b.recurringInterval target limit fuel b.dueDate
  else false

/-- The interval values with an automatic projection in `DayContent`. -/
def knownAutoIntervals : List String :=
  ["monthly", "3-months", "6-months", "yearly", "2-years"]

/-! ## Concrete instances used in witnesses and counterexamples -/

/-- A concrete paid bill (due yesterday relative to `now = 10` days). -/
def paidSample : Bill :=
  { id := 4, title := "Netflix Subscription", amount := "186000",
    dueDate := 9 * 86400000, status := BillStatus.paid,
    category := "Entertainment", isRecurring := some false,
    recurringInterval := none, invoiceUrl := none,
    reminderSoundInterval := some 120, lastEmailRemindedAt := none,
    createdAt := some 0, lastRemindedAt := none }

/-- An unpaid bill due `k` days after the epoch, used to hit the tier
boundaries of the classifier. -/
def unpaidDueOnDay (k : Int) : Bill :=
  { id := 1, title := "Internet WiFi", amount := "350000",
    dueDate := k * 86400000, status := BillStatus.unpaid,
    category := "Utilities", isRecurring := some false,
    recurringInterval := none, invoiceUrl := none,
    reminderSoundInterval := some 120, lastEmailRemindedAt := none,
    createdAt := some 0, lastRemindedAt := none }

/-- Settings with email enabled and a recipient, everything else off. -/
def emailSettings : Settings :=
  { id := 1, userEmail := some "user@example.com", telegramToken := none,
    telegramChatId := none, isTelegramEnabled := some false,
    isEmailEnabled := some true, isSoundEnabled := some false,
    isMuted := some false, alertSoundUrl := none }

/-- A reference instant: day 10, five minutes past midnight. -/
def nowSample : Int := 10 * 86400000 + 5 * 60000

/-- Unpaid bill due on the day of `nowSample` whose last email fired
yesterday. -/
def redBillEmailYesterday : Bill :=
  { unpaidDueOnDay 10 with lastEmailRemindedAt := some (9 * 86400000 + 100) }

/-- Unpaid bill due five days after `nowSample` whose last email fired one
calendar day (24h) earlier. -/
def yellowBillEmail1d : Bill :=
  { unpaidDueOnDay 15 with
    lastEmailRemindedAt := some (nowSample - 86400000) }

/-- Unpaid bill due five days after `nowSample` whose last email fired two
full days earlier. -/
def yellowBillEmail2d : Bill :=
  { unpaidDueOnDay 15 with
    lastEmailRemindedAt := some (nowSample - 2 * 86400000) }

/-- A reference instant for the sound witnesses: day 10, 10:00. -/
def soundNow : Int := 10 * 86400000 + 600 * 60000

/-- Unpaid bill due on the day of `soundNow` last sound-reminded 119 minutes
earlier, interval 120. -/
def redBillSound119 : Bill :=
  { unpaidDueOnDay 10 with
    lastRemindedAt := some (soundNow - 119 * 60000) }

/-- Unpaid bill due on the day of `soundNow` last sound-reminded 121 minutes
earlier, interval 120. -/
def redBillSound121 : Bill :=
  { unpaidDueOnDay 10 with lastRemindedAt := some (soundNow - 121 * 60000) }

/-- Settings with Telegram enabled and configured but the email channel
disabled (and no recipient). -/
def yellowTelegramSettings : Settings :=
  { id := 1, userEmail := none, telegramToken := some "123:abc",
    telegramChatId := some "42", isTelegramEnabled := some true,
    isEmailEnabled := some false, isSoundEnabled := some false,
    isMuted := some false, alertSoundUrl := none }

/-- Store with one unpaid Yellow bill (due in 5 days, never reminded) under
`yellowTelegramSettings`. -/
def yellowStore : Store :=
  { bills := [unpaidDueOnDay 5], settings := yellowTelegramSettings }

/-- Settings with every channel flag off (in particular
`isSoundEnabled = false`). -/
def allOffSettings : Settings :=
  { id := 1, userEmail := none, telegramToken := none,
    telegramChatId := none, isTelegramEnabled := some false,
    isEmailEnabled := some false, isSoundEnabled := some false,
    isMuted := some false, alertSoundUrl := none }

/-- Store with one unpaid Red bill (due today, never reminded) under
`allOffSettings`. -/
def allOffStore : Store :=
  { bills := [unpaidDueOnDay 0], settings := allOffSettings }

/-- An unpaid bill whose last email reminder is recorded on day 10. -/
def unpaidStampedBill : Bill :=
  { id := 7, title := "Cicilan Motor", amount := "850000",
    dueDate := 12 * 86400000, status := BillStatus.unpaid,
    category := "Transport", isRecurring := some false,
    recurringInterval := none, invoiceUrl := none,
    reminderSoundInterval := some 120,
    lastEmailRemindedAt := some (10 * 86400000), createdAt := some 0,
    lastRemindedAt := none }

/-- The request body `\x7b "lastEmailRemindedAt": null \x7d` (every other key
absent). -/
def clearStampBody : UpdateRequestBody :=
  { lastEmailRemindedAt := some JsonValue.jnull }

/-- The request body
`\x7b "lastEmailRemindedAt": "1970-01-01T00:00:00Z" \x7d`: an attempt to
backdate the stamp with a JSON string. -/
def backdateStampBody : UpdateRequestBody :=
  { lastEmailRemindedAt := some (JsonValue.jstr "1970-01-01T00:00:00Z") }

/-- The bill fields a sweep may never change: everything except the two
reminder timestamps. -/
def sameNonReminderFields (a c : Bill) : Prop :=
  a.id = c.id ∧ a.title = c.title ∧ a.amount = c.amount ∧
  a.dueDate = c.dueDate ∧ a.status = c.status ∧ a.category = c.category ∧
  a.isRecurring = c.isRecurring ∧
  a.recurringInterval = c.recurringInterval ∧
  a.invoiceUrl = c.invoiceUrl ∧
  a.reminderSoundInterval = c.reminderSoundInterval ∧
  a.createdAt = c.createdAt

/-- A recurring calendar bill whose interval is `"custom"`. -/
def customBill : CalendarBill :=
  { dueDate := { year := 2025, month := 1, day := 15 },
    status := BillStatus.unpaid, isRecurring := some true,
    recurringInterval := some "custom" }

/-! ## Theorems: C1 and C10 -/

/-- C1: if `bill.status = paid` the classifier returns the Paid/gray tier
regardless of any other field; otherwise, with `diffDays` the whole-calendar-
day difference from `startOfDay now` to `startOfDay dueDate`, it returns Red
when `diffDays ≤ 2` (including negative, i.e. overdue), Yellow when
`3 ≤ diffDays ≤ 7`, and Green when `diffDays > 7`. -/
theorem getBillStatusColor_tiers (b : Bill) (r now : Int) :
    (b.status = BillStatus.paid →
      getBillStatusColor b r now = BillStatusColor.gray) ∧
    (b.status = BillStatus.unpaid →
      (differenceInDays (startOfDay b.dueDate) (startOfDay now) ≤ 2 →
        getBillStatusColor b r now = BillStatusColor.red) ∧
      (3 ≤ differenceInDays (startOfDay b.dueDate) (startOfDay now) ∧
          differenceInDays (startOfDay b.dueDate) (startOfDay now) ≤ 7 →
        getBillStatusColor b r now = BillStatusColor.yellow) ∧
      (7 < differenceInDays (startOfDay b.dueDate) (startOfDay now) →
        getBillStatusColor b r now = BillStatusColor.green)) := by
  unfold getBillStatusColor
  cases h : b.status with
  | paid => simp
  | unpaid =>
    refine ⟨by simp, fun _ => ⟨fun h2 => ?_, fun h37 => ?_, fun h8 => ?_⟩⟩
    · simp [h2]
    · simp only [reduceCtorEq, if_false]
      rw [if_neg (by omega), if_pos (by omega)]
    · simp only [reduceCtorEq, if_false]
      rw [if_neg (by omega), if_neg (by omega)]

/-- Witness for C1: the classifier evaluated at the boundary values
`diffDays ∈ \x7b-1, 0, 2, 3, 7, 8\x7d` (with `now = 0`) and at a paid bill. -/
theorem getBillStatusColor_tiers_witness :
    getBillStatusColor paidSample 5 (10 * 86400000) = BillStatusColor.gray ∧
    getBillStatusColor (unpaidDueOnDay (-1)) 0 0 = BillStatusColor.red ∧
    getBillStatusColor (unpaidDueOnDay 0) 0 0 = BillStatusColor.red ∧
    getBillStatusColor (unpaidDueOnDay 2) 0 0 = BillStatusColor.red ∧
    getBillStatusColor (unpaidDueOnDay 3) 0 0 = BillStatusColor.yellow ∧
    getBillStatusColor (unpaidDueOnDay 7) 0 0 = BillStatusColor.yellow ∧
    getBillStatusColor (unpaidDueOnDay 8) 0 0 = BillStatusColor.green :=
  ⟨(getBillStatusColor_tiers paidSample 5 (10 * 86400000)).1 (by decide),
   ((getBillStatusColor_tiers (unpaidDueOnDay (-1)) 0 0).2 (by decide)).1
     (by decide),
   ((getBillStatusColor_tiers (unpaidDueOnDay 0) 0 0).2 (by decide)).1
     (by decide),
   ((getBillStatusColor_tiers (unpaidDueOnDay 2) 0 0).2 (by decide)).1
     (by decide),
   ((getBillStatusColor_tiers (unpaidDueOnDay 3) 0 0).2 (by decide)).2.1
     (by decide),
   ((getBillStatusColor_tiers (unpaidDueOnDay 7) 0 0).2 (by decide)).2.1
     (by decide),
   ((getBillStatusColor_tiers (unpaidDueOnDay 8) 0 0).2 (by decide)).2.2
     (by decide)⟩

/-- C10: the classifier ignores its `referenceDate` parameter — for any two
reference instants (with the ambient wall clock fixed) it returns the same
tier, because the body always classifies against the wall clock. -/
theorem getBillStatusColor_ignores_referenceDate
    (b : Bill) (r1 r2 wallClock : Int) :
    getBillStatusColor b r1 wallClock = getBillStatusColor b r2 wallClock :=
  rfl

/-! ## Helper lemmas -/

theorem channelAttempts_append (l1 l2 : List Attempt) (c : Channel) :
    channelAttempts (l1 ++ l2) c =
      channelAttempts l1 c + channelAttempts l2 c := by
  simp [channelAttempts, List.filter_append]

theorem channelAttempts_nil (c : Channel) : channelAttempts [] c = 0 := rfl

theorem channelAttempts_singleton (a : Attempt) (c : Channel) :
    channelAttempts [a] c = if a.channel == c then 1 else 0 := by
  cases h : a.channel == c <;> simp [channelAttempts, List.filter, h]

/-! ## Theorems: C2 (email cadence) -/

/-- C2: for an unpaid bill with email enabled and a recipient configured —
RED (`diffDays ≤ 2`): the sweep attempts exactly one email iff no email was
sent on the calendar day of `now` (`redEmailDue`: `lastEmailRemindedAt`
null or a different calendar day), and on firing leaves
`lastEmailRemindedAt = now`; YELLOW (`3 ≤ diffDays ≤ 7`): it attempts
exactly one email iff `differenceInDays now lastEmailRemindedAt ≥ 2` or the
timestamp was never set (`yellowEmailDays`), and on firing leaves
`lastEmailRemindedAt = now`. -/
theorem email_cadence (o : Nat → Channel → Bool) (s : Settings) (now : Int)
    (b : Bill)
    (henabled : truthy s.isEmailEnabled = true)
    (hrecipient : truthyStr s.userEmail = true)
    (hunpaid : b.status = BillStatus.unpaid) :
    (differenceInDays (startOfDay b.dueDate) (startOfDay now) ≤ 2 →
      channelAttempts (sweepStep o s now b).2 Channel.email =
        (if redEmailDue b now then 1 else 0) ∧
      (redEmailDue b now = true →
        (sweepStep o s now b).1.lastEmailRemindedAt = some now)) ∧
    (differenceInDays (startOfDay b.dueDate) (startOfDay now) ≤ 7 ∧
        3 ≤ differenceInDays (startOfDay b.dueDate) (startOfDay now) →
      channelAttempts (sweepStep o s now b).2 Channel.email =
        (if yellowEmailDays b.lastEmailRemindedAt now then 1 else 0) ∧
      (yellowEmailDays b.lastEmailRemindedAt now = true →
        (sweepStep o s now b).1.lastEmailRemindedAt = some now)) := by
  have hred : redEmailGate s b now = redEmailDue b now := by
    simp [redEmailGate, henabled, hrecipient]
  have hyel : yellowEmailFires s b now =
      yellowEmailDays b.lastEmailRemindedAt now := by
    simp [yellowEmailFires, henabled, hrecipient]
  constructor
  · intro h2
    unfold sweepStep
    rw [if_pos hunpaid]
    unfold processBill
    rw [if_pos h2]
    refine ⟨?_, fun hg => ?_⟩
    · cases hg : redEmailDue b now <;>
        cases ht : telegramConfigured s <;>
        cases hs : soundGate b now <;>
        simp [channelAttempts, hred, hg, ht, hs]
    · simp [hred, hg]
  · rintro ⟨h7, h3⟩
    unfold sweepStep
    rw [if_pos hunpaid]
    unfold processBill
    rw [if_neg (by omega), if_pos ⟨h7, h3⟩]
    refine ⟨?_, fun hg => ?_⟩
    · cases hg : yellowEmailDays b.lastEmailRemindedAt now <;>
        cases ht : telegramConfigured s <;>
        simp [channelAttempts, hyel, hg, ht]
    · simp [hyel, hg]

/-- Witness for C2: Red with `lastEmailRemindedAt` = yesterday sends exactly
one email today and advances the timestamp to `now`; Yellow sends nothing at
1 day since the last email and exactly one email at 2 days. -/
theorem email_cadence_witness :
    channelAttempts
        (sweepStep allSendsOk emailSettings nowSample redBillEmailYesterday).2
        Channel.email = 1 ∧
    (sweepStep allSendsOk emailSettings nowSample
        redBillEmailYesterday).1.lastEmailRemindedAt = some nowSample ∧
    channelAttempts
        (sweepStep allSendsOk emailSettings nowSample yellowBillEmail1d).2
        Channel.email = 0 ∧
    channelAttempts
        (sweepStep allSendsOk emailSettings nowSample yellowBillEmail2d).2
        Channel.email = 1 ∧
    (sweepStep allSendsOk emailSettings nowSample
        yellowBillEmail2d).1.lastEmailRemindedAt = some nowSample := by
  have hr := email_cadence allSendsOk emailSettings nowSample
    redBillEmailYesterday (by decide) (by decide) (by decide)
  have h1 := email_cadence allSendsOk emailSettings nowSample
    yellowBillEmail1d (by decide) (by decide) (by decide)
  have h2 := email_cadence allSendsOk emailSettings nowSample
    yellowBillEmail2d (by decide) (by decide) (by decide)
  refine ⟨(hr.1 (by decide)).1.trans (by decide),
    (hr.1 (by decide)).2 (by decide),
    (h1.2 ⟨by decide, by decide⟩).1.trans (by decide),
    (h2.2 ⟨by decide, by decide⟩).1.trans (by decide),
    (h2.2 ⟨by decide, by decide⟩).2 (by decide)⟩

/-! ## Theorems: C3 (sound cadence) -/

/-- C3: for an unpaid bill with `reminderSoundInterval = m > 0` — RED
(`diffDays ≤ 2`): the sweep triggers exactly one sound alert iff
`lastRemindedAt` is null or at least `m` minutes have passed since it
(`soundDue`), and on firing leaves `lastRemindedAt = now`; for
`3 ≤ diffDays` (Yellow and Green) the sound channel never fires. -/
theorem sound_cadence (o : Nat → Channel → Bool) (s : Settings) (now : Int)
    (b : Bill) (m : Int)
    (hunpaid : b.status = BillStatus.unpaid)
    (hm : b.reminderSoundInterval = some m)
    (hmpos : 0 < m) :
    (differenceInDays (startOfDay b.dueDate) (startOfDay now) ≤ 2 →
      channelAttempts (sweepStep o s now b).2 Channel.sound =
        (if soundDue b.lastRemindedAt m now then 1 else 0) ∧
      (soundDue b.lastRemindedAt m now = true →
        (sweepStep o s now b).1.lastRemindedAt = some now)) ∧
    (3 ≤ differenceInDays (startOfDay b.dueDate) (startOfDay now) →
      channelAttempts (sweepStep o s now b).2 Channel.sound = 0) := by
  have hint : soundIntervalOf b = m := by
    simp [soundIntervalOf, hm]
    omega
  have hsg : soundGate b now = soundDue b.lastRemindedAt m now := by
    rw [soundGate, hint]
  constructor
  · intro h2
    unfold sweepStep
    rw [if_pos hunpaid]
    unfold processBill
    rw [if_pos h2]
    refine ⟨?_, fun hg => ?_⟩
    · cases hg : soundDue b.lastRemindedAt m now <;>
        cases he : redEmailGate s b now <;>
        cases ht : telegramConfigured s <;>
        simp [channelAttempts, hsg, hg, he, ht]
    · simp [hsg, hg]
  · intro h3
    unfold sweepStep
    rw [if_pos hunpaid]
    unfold processBill
    rw [if_neg (by omega)]
    by_cases h7 : differenceInDays (startOfDay b.dueDate) (startOfDay now) ≤ 7
    · rw [if_pos ⟨h7, h3⟩]
      cases he : yellowEmailFires s b now <;>
        cases ht : (telegramConfigured s &&
          yellowEmailDays b.lastEmailRemindedAt now) <;>
        simp [channelAttempts, he, ht]
    · rw [if_neg (by omega)]
      rfl

/-- Witness for C3: with `reminderSoundIntervalMinutes = 120`, a sweep at
119 minutes since `lastRemindedAt` does not trigger the sound alert and a
sweep at 121 minutes does, setting `lastRemindedAt = now`; a Yellow bill
(due in 5 days) never triggers sound. -/
theorem sound_cadence_witness :
    channelAttempts
        (sweepStep allSendsOk emailSettings soundNow redBillSound119).2
        Channel.sound = 0 ∧
    channelAttempts
        (sweepStep allSendsOk emailSettings soundNow redBillSound121).2
        Channel.sound = 1 ∧
    (sweepStep allSendsOk emailSettings soundNow
        redBillSound121).1.lastRemindedAt = some soundNow ∧
    channelAttempts
        (sweepStep allSendsOk emailSettings nowSample yellowBillEmail2d).2
        Channel.sound = 0 := by
  have h119 := sound_cadence allSendsOk emailSettings soundNow
    redBillSound119 120 (by decide) (by decide) (by decide)
  have h121 := sound_cadence allSendsOk emailSettings soundNow
    redBillSound121 120 (by decide) (by decide) (by decide)
  have hyel := sound_cadence allSendsOk emailSettings nowSample
    yellowBillEmail2d 120 (by decide) (by decide) (by decide)
  exact ⟨(h119.1 (by decide)).1.trans (by decide),
    (h121.1 (by decide)).1.trans (by decide),
    (h121.1 (by decide)).2 (by decide),
    hyel.2 (by decide)⟩

/-! ## Theorems: C5 (channel enablement flags) -/

/-- Counterexample to C5 as stated: with `isSoundEnabled = false` (all
flags off) and an unpaid Red bill that was never reminded, the sweep still
fires the sound channel — it records a sound alert and writes
`lastRemindedAt = now` — because the server sweep never consults the sound
flag. -/
theorem sweep_sound_fires_despite_disabled_flag :
    truthy allOffStore.settings.isSoundEnabled = false ∧
    channelAttempts (sweep allOffStore 0).2 Channel.sound = 1 ∧
    (sweep allOffStore 0).1.bills.map (fun b => b.lastRemindedAt) =
      [some 0] ∧
    (unpaidDueOnDay 0).lastRemindedAt = none := by
  decide

/-- C5 (amended): the email and chat channels respect their enablement
flags — with `isEmailEnabled` falsy the sweep attempts no email for any
bill and leaves `lastEmailRemindedAt` untouched; with `isTelegramEnabled`
falsy it attempts no chat message — and the audible client-side alert never
plays with `isSoundEnabled` falsy; the sweep's sound bookkeeping, however,
runs regardless of `isSoundEnabled`. -/
theorem disabled_channels_never_fire (o : Nat → Channel → Bool)
    (s : Settings) (now : Int) (b : Bill) :
    (truthy s.isEmailEnabled = false →
      channelAttempts (sweepStep o s now b).2 Channel.email = 0 ∧
      (sweepStep o s now b).1.lastEmailRemindedAt = b.lastEmailRemindedAt) ∧
    (truthy s.isTelegramEnabled = false →
      channelAttempts (sweepStep o s now b).2 Channel.telegram = 0) ∧
    (∀ bs wallClock, truthy s.isSoundEnabled = false →
      soundAlertPlays bs s wallClock = false) := by
  refine ⟨fun he => ?_, fun ht => ?_, fun bs wc hs => ?_⟩
  · have hred : redEmailGate s b now = false := by
      simp [redEmailGate, he]
    have hyel : yellowEmailFires s b now = false := by
      simp [yellowEmailFires, he]
    unfold sweepStep
    by_cases hstat : b.status = BillStatus.unpaid
    · rw [if_pos hstat]
      unfold processBill
      by_cases h2 : differenceInDays (startOfDay b.dueDate) (startOfDay now) ≤ 2
      · rw [if_pos h2]
        cases hsnd : soundGate b now <;>
          cases htg : telegramConfigured s <;>
          simp [channelAttempts, hred, hsnd, htg]
      · rw [if_neg h2]
        by_cases h37 : differenceInDays (startOfDay b.dueDate) (startOfDay now) ≤ 7 ∧
            3 ≤ differenceInDays (startOfDay b.dueDate) (startOfDay now)
        · rw [if_pos h37]
          cases htg : (telegramConfigured s &&
              yellowEmailDays b.lastEmailRemindedAt now) <;>
            simp [channelAttempts, hyel, htg]
        · rw [if_neg h37]
          exact ⟨rfl, rfl⟩
    · rw [if_neg hstat]
      exact ⟨rfl, rfl⟩
  · have htc : telegramConfigured s = false := by
      simp [telegramConfigured, ht]
    unfold sweepStep
    by_cases hstat : b.status = BillStatus.unpaid
    · rw [if_pos hstat]
      unfold processBill
      by_cases h2 : differenceInDays (startOfDay b.dueDate) (startOfDay now) ≤ 2
      · rw [if_pos h2]
        cases hsnd : soundGate b now <;>
          cases hre : redEmailGate s b now <;>
          simp [channelAttempts, htc, hsnd, hre]
      · rw [if_neg h2]
        by_cases h37 : differenceInDays (startOfDay b.dueDate) (startOfDay now) ≤ 7 ∧
            3 ≤ differenceInDays (startOfDay b.dueDate) (startOfDay now)
        · rw [if_pos h37]
          cases hye : yellowEmailFires s b now <;>
            simp [channelAttempts, htc, hye]
        · rw [if_neg h37]
          rfl
    · rw [if_neg hstat]
      rfl
  · simp [soundAlertPlays, hs]

/-- Witness for the amended C5: under `allOffSettings` a Red bill due now
produces no email attempt, no chat attempt, an unchanged
`lastEmailRemindedAt`, and no client-side audio. -/
theorem disabled_channels_never_fire_witness :
    channelAttempts
        (sweepStep allSendsOk allOffSettings 0 (unpaidDueOnDay 0)).2
        Channel.email = 0 ∧
    (sweepStep allSendsOk allOffSettings 0
        (unpaidDueOnDay 0)).1.lastEmailRemindedAt = none ∧
    channelAttempts
        (sweepStep allSendsOk allOffSettings 0 (unpaidDueOnDay 0)).2
        Channel.telegram = 0 ∧
    soundAlertPlays [unpaidDueOnDay 0] allOffSettings 0 = false := by
  have h := disabled_channels_never_fire allSendsOk allOffSettings 0
    (unpaidDueOnDay 0)
  exact ⟨(h.1 (by decide)).1, ((h.1 (by decide)).2).trans (by decide),
    h.2.1 (by decide), h.2.2 [unpaidDueOnDay 0] 0 (by decide)⟩

/-! ## Theorems: C4 (sweep idempotence) -/

/-- C4 fails on the code: under `yellowTelegramSettings` (Telegram on,
email off) the Yellow bill gets a chat message from the first sweep, the
sweep leaves the store unchanged (the chat channel advances no timestamp
because only the email branch writes `lastEmailRemindedAt`), and a second
identical sweep sends another chat message — a double-send beyond the
2-day cadence. -/
theorem sweep_repeats_yellow_telegram :
    channelAttempts (sweep yellowStore 0).2 Channel.telegram = 1 ∧
    (sweep yellowStore 0).1 = yellowStore ∧
    channelAttempts (sweep (sweep yellowStore 0).1 0).2
      Channel.telegram = 1 := by
  decide

/-! ## Theorems: C6 (reminder timestamps under CRUD) -/

/-- No reachable `PUT /api/bills/:id` payload sets `lastEmailRemindedAt`
to a time: whatever JSON body validates, the parsed field is either absent
or null, because the generated `z.date()` validator has no coercion and no
JSON value is a `Date` instance.  (Backdating through the endpoint is
therefore impossible; only clearing is.) -/
theorem parseBillUpdate_never_sets_email_stamp
    (jsNewDate : JsonValue → Option Int) (r : UpdateRequestBody)
    (u : BillUpdate) (h : parseBillUpdate jsNewDate r = some u) :
    u.lastEmailRemindedAt = none ∨ u.lastEmailRemindedAt = some none := by
  unfold parseBillUpdate at h
  simp only [Option.bind_eq_bind, Option.bind_eq_some] at h
  obtain ⟨t, ht, a, ha, d, hd, st, hst, c, hc, ir, hir, ri, hri, iu, hiu,
    si, hsi, le, hle, hu⟩ := h
  cases hu
  match hr : r.lastEmailRemindedAt, hle with
  | none, hle => cases hle; exact Or.inl rfl
  | some JsonValue.jnull, hle => cases hle; exact Or.inr rfl

/-- C6 fails on the code, at the one reachable transition the schema slip
leaves open: `insertBillSchema` omits `id`, `createdAt` and
`lastRemindedAt` but not `lastEmailRemindedAt`, so a
`PUT /api/bills/:id` with body `\x7b "lastEmailRemindedAt": null \x7d`
passes validation and clears the stamp of an unpaid bill with no send
attempt (resetting the daily/2-day email cadence), against the invariant;
the backdating variant with a JSON string, by contrast, is rejected with a
400 and changes nothing (the generated `z.date()` has no coercion), for
every behaviour of the JS `Date` constructor. -/
theorem putBill_clears_email_stamp_without_send
    (jsNewDate : JsonValue → Option Int) :
    putBill jsNewDate unpaidStampedBill backdateStampBody = none ∧
    putBill jsNewDate unpaidStampedBill clearStampBody =
      some { unpaidStampedBill with lastEmailRemindedAt := none } ∧
    unpaidStampedBill.status = BillStatus.unpaid ∧
    unpaidStampedBill.lastEmailRemindedAt = some (10 * 86400000) :=
  ⟨rfl, rfl, rfl, rfl⟩

/-! ## Theorems: C7 (send failures) -/

theorem processBill_fst_oracle (o1 o2 : Nat → Channel → Bool)
    (s : Settings) (now : Int) (b : Bill) :
    (processBill o1 s now b).1 = (processBill o2 s now b).1 := by
  unfold processBill
  split_ifs <;> rfl

theorem processBill_events_oracle (o1 o2 : Nat → Channel → Bool)
    (s : Settings) (now : Int) (b : Bill) :
    (processBill o1 s now b).2.map eraseOutcome =
      (processBill o2 s now b).2.map eraseOutcome := by
  unfold processBill
  split_ifs <;> simp [eraseOutcome]

theorem sweepStep_fst_oracle (o1 o2 : Nat → Channel → Bool)
    (s : Settings) (now : Int) (b : Bill) :
    (sweepStep o1 s now b).1 = (sweepStep o2 s now b).1 := by
  unfold sweepStep
  split
  · exact processBill_fst_oracle o1 o2 s now b
  · rfl

theorem sweepStep_events_oracle (o1 o2 : Nat → Channel → Bool)
    (s : Settings) (now : Int) (b : Bill) :
    (sweepStep o1 s now b).2.map eraseOutcome =
      (sweepStep o2 s now b).2.map eraseOutcome := by
  unfold sweepStep
  split
  · exact processBill_events_oracle o1 o2 s now b
  · rfl

/-- C7: the sweep's observable behaviour does not depend on send outcomes.
For any two outcome oracles the resulting store is identical — so a failed
send still advances the cadence timestamp exactly as a successful one
("at most one attempt per cadence interval") — and the attempts, up to the
recorded outcome, are identical — so a failure stops neither the remaining
channels of the same bill nor the remaining bills.  (That a provider error
cannot escape at all is built into the embedding: `sendReminderEmail` and
`sendTelegramMessage` wrap their bodies in try/catch and return `void`.) -/
theorem sweep_ignores_send_outcomes (o1 o2 : Nat → Channel → Bool)
    (st : Store) (now : Int) :
    (sweepO o1 st now).1 = (sweepO o2 st now).1 ∧
    (sweepO o1 st now).2.map eraseOutcome =
      (sweepO o2 st now).2.map eraseOutcome := by
  constructor
  · unfold sweepO
    have hmap : st.bills.map (fun b => (sweepStep o1 st.settings now b).1) =
        st.bills.map (fun b => (sweepStep o2 st.settings now b).1) := by
      induction st.bills with
      | nil => rfl
      | cons hd tl ih =>
        simp only [List.map_cons, ih]
        rw [sweepStep_fst_oracle o1 o2]
    rw [hmap]
  · unfold sweepO
    induction st.bills with
    | nil => rfl
    | cons hd tl ih =>
      simp only [List.flatMap_cons, List.map_append, ih]
      rw [sweepStep_events_oracle o1 o2]

/-! ## Theorems: C8 (frame condition of the sweep) -/

theorem sweepStep_frame (o : Nat → Channel → Bool) (s : Settings)
    (now : Int) (b : Bill) :
    sameNonReminderFields b (sweepStep o s now b).1 := by
  unfold sweepStep processBill sameNonReminderFields
  split_ifs <;> simp

/-- C8: a sweep neither creates nor deletes bills (the bill list keeps its
length, element by element), changes at most the two reminder timestamps of
each bill (`sameNonReminderFields` pins every other column), and leaves the
settings record untouched. -/
theorem sweep_frame (o : Nat → Channel → Bool) (st : Store) (now : Int) :
    List.Forall₂ sameNonReminderFields st.bills (sweepO o st now).1.bills ∧
    (sweepO o st now).1.bills.length = st.bills.length ∧
    (sweepO o st now).1.settings = st.settings := by
  have hf : List.Forall₂ sameNonReminderFields st.bills
      (sweepO o st now).1.bills := by
    show List.Forall₂ sameNonReminderFields st.bills
      (st.bills.map (fun b => (sweepStep o st.settings now b).1))
    induction st.bills with
    | nil => exact List.Forall₂.nil
    | cons hd tl ih =>
      exact List.Forall₂.cons (sweepStep_frame o st.settings now hd) ih
  exact ⟨hf, hf.length_eq.symm, rfl⟩

/-! ## Theorems: C9 (custom recurring interval) -/

theorem projectStep_unknown (interval : Option String)
    (h : ∀ nm, interval = some nm → nm ∉ knownAutoIntervals) (d : CDate) :
    projectStep interval d = none := by
  cases interval with
  | none => rfl
  | some nm =>
    have hnm := h nm rfl
    simp [knownAutoIntervals] at hnm
    obtain ⟨h1, h2, h3, h4, h5⟩ := hnm
    simp [projectStep, h1, h2, h3, h4, h5]

/-- C9: a recurring bill whose interval is `"custom"` (or anything outside
the known automatic intervals) is shown only on its stored due date: the
projection loop exits on its first iteration without producing an
occurrence, for every target day, limit and fuel bound (so, in particular,
the loop terminates and cannot crash). -/
theorem custom_interval_does_not_project (b : CalendarBill)
    (hrec : truthy b.isRecurring = true)
    (hunknown : ∀ nm, b.recurringInterval = some nm →
      nm ∉ knownAutoIntervals) :
    ∀ target limit fuel,
      dayShowsBill b target limit fuel = (b.dueDate == target) := by
  intro target limit fuel
  have hloop : ∀ f cur,
      projectLoop b.recurringInterval target limit f cur = false := by
    intro f cur
    cases f with
    | zero => rfl
    | succ n =>
      simp [projectLoop, projectStep_unknown b.recurringInterval hunknown cur]
  unfold dayShowsBill
  cases hdt : (b.dueDate == target) <;> simp [hrec, hloop, hdt]

/-- Witness for C9: the `"custom"` bill anchored on 2025-01-15 shows on its
own due date and projects onto no other day (here 2025-02-15 and
2026-01-15, with a one-year limit and ample fuel). -/
theorem custom_interval_does_not_project_witness :
    dayShowsBill customBill { year := 2025, month := 2, day := 15 }
      { year := 2026, month := 1, day := 15 } 500 = false ∧
    dayShowsBill customBill { year := 2026, month := 1, day := 15 }
      { year := 2026, month := 1, day := 15 } 500 = false ∧
    dayShowsBill customBill { year := 2025, month := 1, day := 15 }
      { year := 2026, month := 1, day := 15 } 500 = true := by
  have h := custom_interval_does_not_project customBill (by decide)
    (by intro nm hnm; simp [customBill] at hnm; subst hnm; decide)
  exact ⟨(h { year := 2025, month := 2, day := 15 }
      { year := 2026, month := 1, day := 15 } 500).trans (by decide),
    (h { year := 2026, month := 1, day := 15 }
      { year := 2026, month := 1, day := 15 } 500).trans (by decide),
    (h { year := 2025, month := 1, day := 15 }
      { year := 2026, month := 1, day := 15 } 500).trans (by decide)⟩
